import Mathlib

/-
Verification of the display-orchestration core of the weather-display
repository (src/weather.py and src/earth.py) against its design document.

The Python source is shallowly embedded: pure drawing helpers become Lean
functions on a symbolic bitmap type (pixel coordinates and font metrics are
irrelevant to every property checked here, so a bitmap is recorded as the
ordered list of draw operations with their text and fill colours); the main
loop of weather.py becomes a step function on an explicit state record, with
impure inputs (wall-clock time, wifi status, strftime output, hardware write
outcome) passed in as arguments; the fire-and-forget fetch threads become
explicit launch and completion events.
-/

namespace WeatherStation

-- ── Constants (weather.py lines 56-68, 580; earth.py lines 33-34) ────────────

def BL_MAIN_DUTY : Nat := 90

def BL_SIDE_DUTY : Nat := 45

def UPDATE_SECONDS : Nat := 300

def DIM_TIMEOUT : Nat := 120

def SWAP_INTERVAL : Nat := 3600

def LOOP_INTERVAL : Nat := 5

def EARTH_UPDATE_SECONDS : Nat := 3600

def MAX_PHOTOS : Nat := 12

def CITY : String := "Streatham"

/-- CITY.upper() as drawn at weather.py line 263, written out as the
literal it evaluates to (the Lean string-map functions are well-founded
recursions that concrete evaluation inside proofs cannot unfold). -/
def CITY_UPPER : String := "STREATHAM"

-- ── Weather codes (weather.py lines 78-87): the WMO dict ─────────────────────

def WMO : Nat → Option String
  | 0 => some ("Clear")
  | 1 => some ("Mostly Clear")
  | 2 => some ("Partly Cloudy")
  | 3 => some ("Overcast")
  | 45 => some ("Foggy")
  | 48 => some ("Icy Fog")
  | 51 => some ("Light Drizzle")
  | 53 => some ("Drizzle")
  | 55 => some ("Heavy Drizzle")
  | 61 => some ("Light Rain")
  | 63 => some ("Rain")
  | 65 => some ("Heavy Rain")
  | 71 => some ("Light Snow")
  | 73 => some ("Snow")
  | 75 => some ("Heavy Snow")
  | 77 => some ("Snow Grains")
  | 80 => some ("Showers")
  | 81 => some ("Rain Showers")
  | 82 => some ("Heavy Showers")
  | 85 => some ("Snow Showers")
  | 86 => some ("Heavy Snow Showers")
  | 95 => some ("Thunderstorm")
  | 96 => some ("Storm+Hail")
  | 99 => some ("Severe Storm")
  | _ => none

/-- WMO.get(code, 'Unknown') as used at weather.py line 292. -/
def condLabel (code : Nat) : String :=
  (WMO code).getD ("Unknown")

-- ── Helpers (weather.py lines 90-106) ────────────────────────────────────────

/-- Round-half-to-even of the exact rational n / d, for natural n and d.
This embeds Python round(n / d): for d = 45 and integral n the quotient is
never exactly halfway (45 is odd, so 2 * n = 45 * odd has no solution) and
the float quotient is far enough from every halfway point that Python
rounding of the float agrees with exact rational rounding. -/
def pyRoundDiv (n d : Nat) : Nat :=
  let q := n / d
  let r := n % d
  if 2 * r < d then q
  else if d < 2 * r then q + 1
  else if q % 2 = 0 then q else q + 1

/-- weather.py lines 90-91: compass label from wind direction in degrees. -/
def wind_dir (deg : Nat) : String :=
  (["N", "NE", "E", "SE", "S", "SW", "W", "NW"]).getD (pyRoundDiv deg 45 % 8) ("N")

/-- weather.py lines 93-99: temperature band colour. -/
def temp_col (t : Int) : Nat × Nat × Nat :=
  if t < 5 then (100, 180, 255)
  else if t < 12 then (60, 200, 200)
  else if t < 18 then (80, 220, 140)
  else if t < 24 then (200, 200, 100)
  else if t < 28 then (255, 160, 60)
  else (255, 80, 60)

/-- weather.py lines 101-106: UV index colour. -/
def uv_col (uv : Int) : Nat × Nat × Nat :=
  if uv ≤ 2 then (100, 200, 100)
  else if uv ≤ 5 then (240, 200, 60)
  else if uv ≤ 7 then (255, 160, 60)
  else if uv ≤ 10 then (255, 100, 60)
  else (200, 60, 100)

-- ── Snapshot data model ──────────────────────────────────────────────────────

/-- The fields of a successful weather fetch (weather.py lines 177-190).
All numeric fields are the results of Python round() on API floats, hence
integers; wdir is the API wind direction in degrees (0-360), a Nat. -/
structure WeatherData where
  temp : Int
  feels : Int
  humidity : Int
  wind : Int
  wdir : Nat
  code : Nat
  uv : Int
  high : Int
  low : Int
  sunrise : String
  sunset : String
  deriving DecidableEq

/-- A weather snapshot dict: either the failure dict with ok False
(weather.py line 193) or a full dict with ok True (lines 177-190). -/
inductive WSnapshot where
  | fail
  | ok (w : WeatherData)
  deriving DecidableEq

/-- An earth-photo snapshot dict from fetch_earth_photo (weather.py lines
238-244 and 248). Latitude and longitude are Python round(x, 1) floats,
embedded as tenths of a degree. The PIL image object is not modelled; the
resized copy lives in the earth image cache (see MainState). -/
inductive ESnapshot where
  | fail
  | ok (date : String) (latTenths lonTenths : Int)
  deriving DecidableEq

-- ── Symbolic bitmaps ─────────────────────────────────────────────────────────

/-- One drawing operation on a PIL canvas. Coordinates and font sizes are
omitted: no checked property depends on them. Text operations record the
string drawn and the fill colour. -/
inductive DrawOp where
  | text (s : String) (color : Nat × Nat × Nat)
  | wifiIcon (connected : Bool)
  | sunriseIcon
  | sunsetIcon
  | sepLine
  deriving DecidableEq

/-- A rendered panel image: either a fresh canvas with its ordered draw
operations, or the resized 240x240 NASA earth photo returned directly. -/
inductive Bitmap where
  | drawn (ops : List DrawOp)
  | earthResized
  deriving DecidableEq

-- ── Render functions (weather.py lines 254-451) ──────────────────────────────

/-- weather.py lines 254-307 (render_main). The strftime results for the
date line and the clock line are impure and passed in as arguments. -/
def render_main (w : WSnapshot) (wifi : Bool) (dateStr timeStr : String) : Bitmap :=
  match w with
  | .fail => .drawn [.text ("No Data") (80, 80, 90)]
  | .ok w =>
    .drawn [
      .text CITY_UPPER (80, 95, 95),
      .text dateStr (55, 55, 70),
      .text (toString w.low ++ "°") (120, 180, 255),
      .text (toString w.high ++ "°") (255, 160, 80),
      .wifiIcon wifi,
      .text (toString w.temp ++ "°") (temp_col w.temp),
      .text ("Feels " ++ toString w.feels ++ "°") (70, 70, 85),
      .text (condLabel w.code) (200, 200, 210),
      .text ("UV " ++ toString w.uv) (uv_col w.uv),
      .text timeStr (224, 224, 224)
    ]

/-- weather.py lines 313-344 (render_humidity_wind). -/
def render_humidity_wind (w : WSnapshot) : Bitmap :=
  match w with
  | .fail => .drawn [.text ("--") (60, 60, 70)]
  | .ok w =>
    .drawn [
      .text ("HUM") (50, 50, 65),
      .text (toString w.humidity ++ "%") (60, 180, 180),
      .sepLine,
      .text ("WIND") (50, 50, 65),
      .text (toString w.wind) (160, 110, 220),
      .text (wind_dir w.wdir ++ " km/h") (80, 80, 95)
    ]

/-- weather.py lines 350-373 (render_sun_times). -/
def render_sun_times (w : WSnapshot) : Bitmap :=
  match w with
  | .fail => .drawn [.text ("--") (60, 60, 70)]
  | .ok w =>
    .drawn [
      .sunriseIcon,
      .text w.sunrise (255, 190, 80),
      .sepLine,
      .sunsetIcon,
      .text w.sunset (255, 110, 60)
    ]

/-- weather.py lines 379-396 (render_main_earth). cacheFilled is whether
earth_image_cache has a resized_240 entry; both the cache hit and the
on-the-fly resize fallback yield the resized earth photo. -/
def render_main_earth (e : ESnapshot) (cacheFilled : Bool) : Bitmap :=
  match e with
  | .fail => .drawn [.text ("No Earth") (80, 80, 90), .text ("photo available") (60, 60, 70)]
  | .ok _ _ _ =>
    if cacheFilled then .earthResized else .earthResized

/-- Formats tenths of a degree the way the Python f-string formats the
rounded float magnitude (fidelity to the digits is inessential: no checked
property reads these strings). -/
def fmtTenths (n : Nat) : String :=
  toString (n / 10) ++ "." ++ toString (n % 10)

/-- weather.py lines 402-424 (render_left_earth). The date string has the
shape YYYY-MM-DD HH:MM:SS; Python indexes the split result directly. -/
def render_left_earth (e : ESnapshot) : Bitmap :=
  match e with
  | .fail => .drawn [.text ("--") (60, 60, 70)]
  | .ok date _ _ =>
    let parts := date.splitOn (" ")
    .drawn [
      .text ("NASA EPIC") (100, 150, 255),
      .text (parts.getD 0 ("")) (200, 200, 210),
      .text ((parts.getD 1 ("")).take 5 ++ " UTC") (150, 150, 160)
    ]

/-- weather.py lines 430-451 (render_right_earth). -/
def render_right_earth (e : ESnapshot) : Bitmap :=
  match e with
  | .fail => .drawn [.text ("--") (60, 60, 70)]
  | .ok _ lat lon =>
    .drawn [
      .text ("CENTER") (80, 80, 95),
      .text ("LAT: " ++ fmtTenths lat.natAbs ++ "° " ++ (if 0 ≤ lat then "N" else "S"))
        (100, 200, 150),
      .text ("LON: " ++ fmtTenths lon.natAbs ++ "° " ++ (if 0 ≤ lon then "E" else "W"))
        (100, 200, 150)
    ]

-- ── Fetch scheduling and fire-and-forget fetch threads ───────────────────────
-- weather.py keeps weather_ref = (dict with data and last_fetch) (line 518);
-- the loop launches a daemon thread whenever the source is due (lines
-- 589-590); the thread body _fetch (lines 461-467) writes data and
-- last_fetch only when the fetched dict has ok True. The code holds no
-- in-flight flag; the model counts launched-but-unfinished threads.

/-- weather_ref (weather.py line 518): the shared dict mutated by the fetch
thread. lastFetch 0 encodes the initial never-fetched sentinel. -/
structure WeatherRef where
  data : WSnapshot
  lastFetch : Nat
  deriving DecidableEq

/-- An event in the life of one data source: a main-loop tick running the
due check at wall-clock time now (weather.py line 589), or the completion
of one previously launched fetch thread (weather.py lines 463-466),
carrying the dict the fetch returned and, on success, the time.time()
the thread reads at line 466. -/
inductive FetchEvent where
  | tick (now : Nat)
  | completeOk (w : WeatherData) (t : Nat)
  | completeFail
  deriving DecidableEq

/-- The weather source state plus the count of fetch threads that have been
started and have not yet finished (inFlight is a ghost counter: the Python
code keeps no such flag, which is exactly what the scheduler claims are
about). -/
structure SchedState where
  ref : WeatherRef
  inFlight : Nat
  deriving DecidableEq

/-- One event of the weather source: a tick launches a fetch thread exactly
when the source is due (weather.py lines 589-590), mutating nothing else; a
completion with ok True replaces data and last_fetch (lines 464-466); a
completion with ok False mutates nothing (line 464 guard). -/
def schedStep (s : SchedState) : FetchEvent → SchedState
  | .tick now =>
    if UPDATE_SECONDS ≤ now - s.ref.lastFetch ∨ s.ref.lastFetch = 0 then
      { s with inFlight := s.inFlight + 1 }
    else s
  | .completeOk w t => { ref := { data := .ok w, lastFetch := t }, inFlight := s.inFlight - 1 }
  | .completeFail => { s with inFlight := s.inFlight - 1 }

/-- Run a sequence of events from a state. -/
def runSched (s : SchedState) (evs : List FetchEvent) : SchedState :=
  evs.foldl schedStep s

/-- The weather source at process start (weather.py line 518): failure dict,
last_fetch 0, no thread running. -/
def schedInit : SchedState :=
  { ref := { data := .fail, lastFetch := 0 }, inFlight := 0 }

-- ── Main loop state (weather.py main, lines 486-632) ─────────────────────────

/-- current_page (weather.py line 492). -/
inductive Page where
  | weather
  | earth
  deriving DecidableEq

/-- The page flip of key2_callback (weather.py line 562). -/
def togglePage : Page → Page
  | .weather => .earth
  | .earth => .weather

/-- One page of the frame_buffers dict (weather.py lines 40-43): the three
pre-rendered panel images, None before the first refresh. -/
structure PageFrames where
  main : Option Bitmap
  left : Option Bitmap
  right : Option Bitmap
  deriving DecidableEq

/-- frame_buffers (weather.py lines 40-43). -/
structure FrameBuffers where
  weather : PageFrames
  earth : PageFrames
  deriving DecidableEq

/-- frame_buffers[current_page] (weather.py lines 547, 625). -/
def pageBuffer (fb : FrameBuffers) : Page → PageFrames
  | .weather => fb.weather
  | .earth => fb.earth

/-- What one ShowImage round wrote to the three panels (weather.py lines
627-629): the main panel image that passed the truthiness guard, and the
left and right buffer entries. -/
structure Shown where
  main : Bitmap
  left : Option Bitmap
  right : Option Bitmap
  deriving DecidableEq

/-- earth_ref (weather.py line 519). -/
structure EarthRef where
  data : ESnapshot
  lastFetch : Nat
  deriving DecidableEq

/-- The whole mutable state of weather.py main plus three ghost counters
(renderCalls: render-function invocations; refreshCalls:
update_frame_buffers invocations; fetchLaunches: fetch threads started by
the due checks) and the images last written to the displays. -/
structure MainState where
  lastActivity : Nat
  isDimmed : Bool
  screensSwapped : Bool
  lastSwapTime : Nat
  currentPage : Page
  weatherRef : WeatherRef
  earthRef : EarthRef
  earthResizedCache : Bool
  frames : FrameBuffers
  dutyMain : Nat
  dutyLeft : Nat
  dutyRight : Nat
  renderCalls : Nat
  refreshCalls : Nat
  fetchLaunches : Nat
  displayed : Option Shown
  deriving DecidableEq

/-- int(duty * 0.2) (weather.py lines 608-610). For the two duty constants
used (90 and 45) the Python float product floors to the exact fifth, which
this integer form computes. -/
def dim_duty (d : Nat) : Nat :=
  d * 2 / 10

/-- The weather due check and thread launch of weather.py lines 589-590. A
launch mutates no loop state (the thread only writes the refs on success,
modelled separately by applyWeatherResult); the ghost counter records that
a fetch was started. -/
def weatherFetchStep (s : MainState) (now : Nat) : MainState :=
  if UPDATE_SECONDS ≤ now - s.weatherRef.lastFetch ∨ s.weatherRef.lastFetch = 0 then
    { s with fetchLaunches := s.fetchLaunches + 1 }
  else s

/-- The earth due check and thread launch of weather.py lines 593-594. -/
def earthFetchStep (s : MainState) (now : Nat) : MainState :=
  if EARTH_UPDATE_SECONDS ≤ now - s.earthRef.lastFetch ∨ s.earthRef.lastFetch = 0 then
    { s with fetchLaunches := s.fetchLaunches + 1 }
  else s

/-- The due checks and thread launches of weather.py lines 589-594. -/
def fetchStep (s : MainState) (now : Nat) : MainState :=
  earthFetchStep (weatherFetchStep s now) now

/-- The screen-swap check of weather.py lines 597-600. -/
def swapStep (s : MainState) (now : Nat) : MainState :=
  if SWAP_INTERVAL ≤ now - s.lastSwapTime then
    { s with screensSwapped := !s.screensSwapped, lastSwapTime := now }
  else s

/-- The auto-dim block of weather.py lines 602-618. -/
def dimStep (s : MainState) (now : Nat) : MainState :=
  if DIM_TIMEOUT ≤ now - s.lastActivity then
    if s.isDimmed then s
    else
      { s with dutyMain := dim_duty BL_MAIN_DUTY, dutyLeft := dim_duty BL_SIDE_DUTY,
               dutyRight := dim_duty BL_SIDE_DUTY, isDimmed := true }
  else
    if s.isDimmed then
      { s with dutyMain := BL_MAIN_DUTY, dutyLeft := BL_SIDE_DUTY,
               dutyRight := BL_SIDE_DUTY, isDimmed := false }
    else s

/-- update_frame_buffers (weather.py lines 522-541): renders all six panel
images of both pages from the current refs and stores them in the buffers.
Six render functions run, and the ghost counters record one refresh and six
render invocations. wifi_status() and the two strftime strings are impure
inputs. -/
def update_frame_buffers (s : MainState) (wifi : Bool) (dateStr timeStr : String) : MainState :=
  let w := s.weatherRef.data
  let e := s.earthRef.data
  let weatherFrames : PageFrames :=
    if s.screensSwapped then
      { main := some (render_main w wifi dateStr timeStr),
        left := some (render_sun_times w),
        right := some (render_humidity_wind w) }
    else
      { main := some (render_main w wifi dateStr timeStr),
        left := some (render_humidity_wind w),
        right := some (render_sun_times w) }
  let earthFrames : PageFrames :=
    { main := some (render_main_earth e s.earthResizedCache),
      left := some (render_left_earth e),
      right := some (render_right_earth e) }
  { s with frames := { weather := weatherFrames, earth := earthFrames },
           renderCalls := s.renderCalls + 6,
           refreshCalls := s.refreshCalls + 1 }

/-- The display block of weather.py lines 624-629 (also the body of
render_current_page_now, lines 544-552): write the current page buffer to
the three panels if its main entry is populated. -/
def displayCurrent (s : MainState) : MainState :=
  let pb := pageBuffer s.frames s.currentPage
  match pb.main with
  | some bm => { s with displayed := some { main := bm, left := pb.left, right := pb.right } }
  | none => s

/-- Steps 1-4 of one loop iteration (weather.py lines 585-621): fetch due
checks, swap check, auto-dim check, then the unconditional buffer refresh. -/
def tickCore (s : MainState) (now : Nat) (wifi : Bool) (dateStr timeStr : String) : MainState :=
  update_frame_buffers (dimStep (swapStep (fetchStep s now) now) now) wifi dateStr timeStr

/-- One full loop iteration assuming the hardware writes succeed
(weather.py lines 584-632). -/
def mainTick (s : MainState) (now : Nat) (wifi : Bool) (dateStr timeStr : String) : MainState :=
  displayCurrent (tickCore s now wifi dateStr timeStr)

/-- key1_callback (weather.py lines 555-558): records activity only. -/
def key1_callback (s : MainState) (now : Nat) : MainState :=
  { s with lastActivity := now }

/-- render_current_page_now (weather.py lines 544-552). -/
def render_current_page_now (s : MainState) : MainState :=
  displayCurrent s

/-- key2_callback (weather.py lines 560-566): flips the page, records
activity, and immediately displays the cached buffers of the new page. -/
def key2_callback (s : MainState) (now : Nat) : MainState :=
  render_current_page_now
    { s with currentPage := togglePage s.currentPage, lastActivity := now }

/-- The effect of one fetch thread finishing (weather.py lines 461-467):
with ok True it replaces weather_ref data and last_fetch; with ok False it
mutates nothing. -/
def applyWeatherResult (s : MainState) (r : WSnapshot) (t : Nat) : MainState :=
  match r with
  | .ok w => { s with weatherRef := { data := .ok w, lastFetch := t } }
  | .fail => s

/-- The effect of one earth fetch thread finishing (weather.py lines
472-482 with fetch_earth_photo lines 232-248): success replaces earth_ref
and fills the resized-image cache; failure mutates nothing. -/
def applyEarthResult (s : MainState) (r : ESnapshot) (t : Nat) : MainState :=
  match r with
  | .ok d la lo => { s with earthRef := { data := .ok d la lo, lastFetch := t },
                            earthResizedCache := true }
  | .fail => s

/-- The state right after the initialisation of main (weather.py lines
487-519), with process start at time 0: both refs hold the failure dict,
the frame buffers are empty, the backlights are at their normal duties. -/
def initialState : MainState :=
  { lastActivity := 0, isDimmed := false, screensSwapped := false, lastSwapTime := 0,
    currentPage := .weather,
    weatherRef := { data := .fail, lastFetch := 0 },
    earthRef := { data := .fail, lastFetch := 0 },
    earthResizedCache := false,
    frames := { weather := { main := none, left := none, right := none },
                earth := { main := none, left := none, right := none } },
    dutyMain := BL_MAIN_DUTY, dutyLeft := BL_SIDE_DUTY, dutyRight := BL_SIDE_DUTY,
    renderCalls := 0, refreshCalls := 0, fetchLaunches := 0, displayed := none }

-- ── Fallible display writes (for the error-handling claims) ──────────────────

/-- Whether the hardware write (ShowImage) raises on this tick. -/
inductive ShowOutcome where
  | success
  | failure
  deriving DecidableEq

/-- The inputs one loop iteration consumes from the outside world. -/
structure TickInput where
  now : Nat
  wifi : Bool
  dateStr : String
  timeStr : String
  showResult : ShowOutcome
  deriving DecidableEq

/-- The display block of weather.py lines 624-629 with a fallible
ShowImage. The loop body wraps the write in no handler (the only except
clause of main, line 634, catches KeyboardInterrupt), so a raised display
error propagates out of the iteration: Except.error. -/
def displayCurrentE (s : MainState) (o : ShowOutcome) : Except Unit MainState :=
  let pb := pageBuffer s.frames s.currentPage
  match pb.main with
  | some bm =>
    match o with
    | .success => .ok { s with displayed := some { main := bm, left := pb.left, right := pb.right } }
    | .failure => .error ()
  | none => .ok s

/-- One full loop iteration with a fallible display write. -/
def mainTickE (s : MainState) (i : TickInput) : Except Unit MainState :=
  displayCurrentE (tickCore s i.now i.wifi i.dateStr i.timeStr) i.showResult

/-- The while loop of weather.py lines 584-632 over a list of tick inputs:
an uncaught display error ends the run (the process dies); otherwise the
next iteration proceeds. -/
def runTicks (s : MainState) : List TickInput → Except Unit MainState
  | [] => .ok s
  | i :: rest =>
    match mainTickE s i with
    | .ok s2 => runTicks s2 rest
    | .error e => .error e

-- ── earth.py rotation model (earth.py main, lines 194-256) ───────────────────

/-- One entry of the NASA EPIC metadata list (the fields earth.py reads). -/
structure PhotoMeta where
  image : String
  date : String
  deriving DecidableEq

/-- fetch_photos_list (earth.py lines 47-69) applied to the decoded API
response: an empty response yields [] (line 61), otherwise the first
MAX_PHOTOS entries (line 63); a raised network or parse error also yields
[] (line 69), which the empty-response case already covers. -/
def fetch_photos_list (images : List PhotoMeta) : List PhotoMeta :=
  if images.isEmpty then [] else images.take MAX_PHOTOS

/-- The index selection of earth.py line 239. -/
def photoIndex (currentHour : Nat) (photos : List PhotoMeta) : Nat :=
  currentHour % photos.length

/-- The downloaded photo dict of fetch_photo_by_metadata (earth.py lines
100-109 and 113): failure, or the fields the renderers read. -/
inductive EarthPhoto where
  | fail
  | ok (date : String) (latTenths lonTenths : Int) (index total : Nat)
  deriving DecidableEq

/-- The rotation state of earth.py main (lines 215-219). lastPhotoHour is
an Int because -1 is its never-loaded sentinel. -/
structure EarthLoopState where
  photosList : List PhotoMeta
  lastListFetch : Nat
  currentPhoto : EarthPhoto
  lastPhotoHour : Int
  displayDirty : Bool
  deriving DecidableEq

/-- The hourly advance block of earth.py lines 238-247, with the result of
fetch_photo_by_metadata passed in: on success the current photo is replaced
and the display marked dirty; on failure both are left untouched; either
way last_photo_hour records the attempt. -/
def photoAdvance (s : EarthLoopState) (currentHour : Int) (fetched : EarthPhoto) : EarthLoopState :=
  if s.photosList.isEmpty then s
  else if currentHour = s.lastPhotoHour then s
  else
    match fetched with
    | .ok d la lo i t =>
      { s with currentPhoto := .ok d la lo i t, displayDirty := true,
               lastPhotoHour := currentHour }
    | .fail => { s with lastPhotoHour := currentHour }

-- ── Sample data for concrete checks ──────────────────────────────────────────

/-- The weather snapshot of the end-to-end design check: temp 18, code 2,
humidity 55, wind 12, wdir 270, sunrise 06:02, sunset 19:58; the remaining
fields (unconstrained by the check) get arbitrary plausible values. -/
def sampleWeather : WeatherData :=
  { temp := 18, feels := 17, humidity := 55, wind := 12, wdir := 270, code := 2,
    uv := 3, high := 20, low := 12, sunrise := "06:02", sunset := "19:58" }

/-- A concrete three-entry NASA EPIC metadata list. -/
def samplePhotos : List PhotoMeta :=
  [{ image := "epic_1b_1", date := "2025-10-11 00:50:27" },
   { image := "epic_1b_2", date := "2025-10-11 02:46:15" },
   { image := "epic_1b_3", date := "2025-10-11 04:42:03" }]

/-- The state after one tick at time 0 from process start (both fetches
still in flight, so both snapshots still hold the failure dict; the frame
buffers now hold the placeholder pages). -/
def tickedState : MainState :=
  mainTick initialState 0 false ("Sun 12 Oct") ("12:00")

/-- The state after a tick at time 120 from an idle process start: the
auto-dim branch has run. -/
def dimmedState : MainState :=
  mainTick initialState 120 false ("Sun 12 Oct") ("12:02")

-- ═════════════════════════════════════════════════════════════════════════════
--  Theorems
-- ═════════════════════════════════════════════════════════════════════════════

-- ── Helper lemmas on the loop steps ──────────────────────────────────────────

theorem weatherFetchStep_spec (s : MainState) (now : Nat) :
    ∃ k, weatherFetchStep s now = { s with fetchLaunches := k } := by
  unfold weatherFetchStep
  split
  · exact ⟨s.fetchLaunches + 1, rfl⟩
  · exact ⟨s.fetchLaunches, rfl⟩

theorem earthFetchStep_spec (s : MainState) (now : Nat) :
    ∃ k, earthFetchStep s now = { s with fetchLaunches := k } := by
  unfold earthFetchStep
  split
  · exact ⟨s.fetchLaunches + 1, rfl⟩
  · exact ⟨s.fetchLaunches, rfl⟩

theorem fetchStep_spec (s : MainState) (now : Nat) :
    ∃ k, fetchStep s now = { s with fetchLaunches := k } := by
  unfold fetchStep
  obtain ⟨k1, h1⟩ := weatherFetchStep_spec s now
  rw [h1]
  obtain ⟨k2, h2⟩ := earthFetchStep_spec { s with fetchLaunches := k1 } now
  rw [h2]
  exact ⟨k2, rfl⟩

theorem swapStep_spec (s : MainState) (now : Nat) :
    ∃ b ts, swapStep s now = { s with screensSwapped := b, lastSwapTime := ts } := by
  unfold swapStep
  split
  · exact ⟨!s.screensSwapped, now, rfl⟩
  · exact ⟨s.screensSwapped, s.lastSwapTime, rfl⟩

theorem update_frame_buffers_spec (s : MainState) (wifi : Bool) (dateStr timeStr : String) :
    ∃ fb, update_frame_buffers s wifi dateStr timeStr =
      { s with frames := fb, renderCalls := s.renderCalls + 6,
               refreshCalls := s.refreshCalls + 1 } :=
  ⟨_, rfl⟩

theorem displayCurrent_spec (s : MainState) :
    ∃ d, displayCurrent s = { s with displayed := d } := by
  simp only [displayCurrent]
  cases h : (pageBuffer s.frames s.currentPage).main with
  | none => exact ⟨s.displayed, rfl⟩
  | some bm => exact ⟨_, rfl⟩

theorem dimStep_dims (s : MainState) (now : Nat)
    (hidle : DIM_TIMEOUT ≤ now - s.lastActivity) (hnd : s.isDimmed = false) :
    dimStep s now =
      { s with dutyMain := dim_duty BL_MAIN_DUTY, dutyLeft := dim_duty BL_SIDE_DUTY,
               dutyRight := dim_duty BL_SIDE_DUTY, isDimmed := true } := by
  unfold dimStep
  rw [if_pos hidle, hnd]
  simp

theorem dimStep_restores (s : MainState) (now : Nat)
    (hactive : ¬ DIM_TIMEOUT ≤ now - s.lastActivity) (hd : s.isDimmed = true) :
    dimStep s now =
      { s with dutyMain := BL_MAIN_DUTY, dutyLeft := BL_SIDE_DUTY,
               dutyRight := BL_SIDE_DUTY, isDimmed := false } := by
  unfold dimStep
  rw [if_neg hactive, hd]
  simp

theorem dimStep_spec (s : MainState) (now : Nat) :
    ∃ dm dl dr b2, dimStep s now =
      { s with dutyMain := dm, dutyLeft := dl, dutyRight := dr, isDimmed := b2 } := by
  unfold dimStep
  split
  · split
    · exact ⟨s.dutyMain, s.dutyLeft, s.dutyRight, s.isDimmed, rfl⟩
    · exact ⟨_, _, _, _, rfl⟩
  · split
    · exact ⟨_, _, _, _, rfl⟩
    · exact ⟨s.dutyMain, s.dutyLeft, s.dutyRight, s.isDimmed, rfl⟩

theorem displayCurrent_shows (s : MainState) (bm : Bitmap)
    (h : (pageBuffer s.frames s.currentPage).main = some bm) :
    displayCurrent s =
      { s with displayed := some ⟨bm, (pageBuffer s.frames s.currentPage).left,
                                  (pageBuffer s.frames s.currentPage).right⟩ } := by
  simp only [displayCurrent]
  rw [h]

/-- After the dim check and the unconditional buffer refresh, the main
entry of every page buffer is populated, so the display write is
attempted on every tick. -/
theorem tickCore_main_some (s : MainState) (now : Nat) (w : Bool) (d t : String) :
    ∃ bm, (pageBuffer (tickCore s now w d t).frames (tickCore s now w d t).currentPage).main =
      some bm := by
  unfold tickCore update_frame_buffers
  cases hp : (dimStep (swapStep (fetchStep s now) now) now).currentPage <;>
    cases hsw : (dimStep (swapStep (fetchStep s now) now) now).screensSwapped <;>
      simp [pageBuffer, hp, hsw]

/-- The loop-state outcome of a tick under an idle period at least
DIM_TIMEOUT long while not yet dimmed: the tick dims. -/
theorem mainTick_dim_spec (s : MainState) (now : Nat) (w : Bool) (d t : String)
    (hidle : DIM_TIMEOUT ≤ now - s.lastActivity) (hnd : s.isDimmed = false) :
    (mainTick s now w d t).isDimmed = true ∧
    (mainTick s now w d t).dutyMain = dim_duty BL_MAIN_DUTY ∧
    (mainTick s now w d t).dutyLeft = dim_duty BL_SIDE_DUTY ∧
    (mainTick s now w d t).dutyRight = dim_duty BL_SIDE_DUTY ∧
    (mainTick s now w d t).lastActivity = s.lastActivity := by
  unfold mainTick tickCore
  obtain ⟨k, hk⟩ := fetchStep_spec s now
  rw [hk]
  obtain ⟨b, ts, hsw⟩ := swapStep_spec { s with fetchLaunches := k } now
  rw [hsw]
  rw [dimStep_dims _ now (by exact hidle) (by exact hnd)]
  obtain ⟨fb, hfb⟩ := update_frame_buffers_spec _ w d t
  rw [hfb]
  obtain ⟨dd, hdd⟩ := displayCurrent_spec _
  rw [hdd]
  exact ⟨rfl, rfl, rfl, rfl, rfl⟩

/-- The loop-state outcome of a tick with recent activity while dimmed:
the tick restores the normal duties. -/
theorem mainTick_restore_spec (s : MainState) (now : Nat) (w : Bool) (d t : String)
    (hactive : ¬ DIM_TIMEOUT ≤ now - s.lastActivity) (hd : s.isDimmed = true) :
    (mainTick s now w d t).isDimmed = false ∧
    (mainTick s now w d t).dutyMain = BL_MAIN_DUTY ∧
    (mainTick s now w d t).dutyLeft = BL_SIDE_DUTY ∧
    (mainTick s now w d t).dutyRight = BL_SIDE_DUTY := by
  unfold mainTick tickCore
  obtain ⟨k, hk⟩ := fetchStep_spec s now
  rw [hk]
  obtain ⟨b, ts, hsw⟩ := swapStep_spec { s with fetchLaunches := k } now
  rw [hsw]
  rw [dimStep_restores _ now (by exact hactive) (by exact hd)]
  obtain ⟨fb, hfb⟩ := update_frame_buffers_spec _ w d t
  rw [hfb]
  obtain ⟨dd, hdd⟩ := displayCurrent_spec _
  rw [hdd]
  exact ⟨rfl, rfl, rfl, rfl⟩

/-- One iteration of the loop with a failing hardware write ends the run
with an uncaught error. -/
theorem mainTickE_failure (s : MainState) (n : Nat) (w : Bool) (d t : String) :
    mainTickE s { now := n, wifi := w, dateStr := d, timeStr := t, showResult := .failure } =
      .error () := by
  obtain ⟨bm, hbm⟩ := tickCore_main_some s n w d t
  unfold mainTickE
  simp only [displayCurrentE]
  rw [hbm]

theorem photoAdvance_fail_spec (es : EarthLoopState) (h : Int) :
    (photoAdvance es h .fail).currentPhoto = es.currentPhoto ∧
    (photoAdvance es h .fail).displayDirty = es.displayDirty := by
  unfold photoAdvance
  split
  · exact ⟨rfl, rfl⟩
  · split
    · exact ⟨rfl, rfl⟩
    · exact ⟨rfl, rfl⟩

-- ── Claim C1 ─────────────────────────────────────────────────────────────────

/-- Claim C1 is false as stated: the loop has no in-flight tracking, so two
fetches for the weather source can be in flight at once. Starting from
process start (last_fetch 0), the tick at time 0 launches a fetch; if that
fetch has not completed by the tick at time 5 (well within its 10 second
network timeout), last_fetch is still 0, the due condition holds again, and
a second fetch thread is launched while the first is still in flight. -/
theorem overlapping_fetches_cex :
    (runSched schedInit [.tick 0, .tick 5]).inFlight = 2 ∧
    ¬ (runSched schedInit [.tick 0, .tick 5]).inFlight ≤ 1 := by
  decide

/-- Claim C1 (amended): a tick launches at most one new fetch for the
weather source, and launches one exactly when the source is due (no
successful fetch yet, or at least UPDATE_SECONDS since the last success),
regardless of any fetch still in flight; the launch mutates nothing else.
The code does not bound the number of simultaneously in-flight fetches. -/
theorem tick_launches_at_most_one_fetch (s : SchedState) (now : Nat) :
    (schedStep s (.tick now)).inFlight ≤ s.inFlight + 1 ∧
    (schedStep s (.tick now)).ref = s.ref ∧
    ((schedStep s (.tick now)).inFlight = s.inFlight + 1 ↔
      (UPDATE_SECONDS ≤ now - s.ref.lastFetch ∨ s.ref.lastFetch = 0)) := by
  by_cases h : UPDATE_SECONDS ≤ now - s.ref.lastFetch ∨ s.ref.lastFetch = 0
  · refine ⟨?_, ?_, ?_⟩ <;> simp [schedStep, h]
  · refine ⟨?_, ?_, ?_⟩ <;> simp [schedStep, h]

/-- Witness for the amended C1 theorem at a concrete state and time. -/
theorem tick_launches_at_most_one_fetch_witness :
    (schedStep schedInit (.tick 0)).inFlight ≤ schedInit.inFlight + 1 ∧
    (schedStep schedInit (.tick 0)).ref = schedInit.ref ∧
    ((schedStep schedInit (.tick 0)).inFlight = schedInit.inFlight + 1 ↔
      (UPDATE_SECONDS ≤ 0 - schedInit.ref.lastFetch ∨ schedInit.ref.lastFetch = 0)) :=
  tick_launches_at_most_one_fetch schedInit 0

-- ── Claim C2 ─────────────────────────────────────────────────────────────────

/-- Claim C2: a fetch that completes with failure (the dict with ok False)
leaves the previously held snapshot and the last-successful-fetch timestamp
unchanged — for the weather source, the earth source of weather.py, and the
photo rotation of earth.py — so the next tick renders and displays exactly
what it would have without the failure, and earth.py issues no new display
write for it (display_dirty is untouched). -/
theorem fetch_failure_preserves_state :
    (∀ s : SchedState, (schedStep s .completeFail).ref = s.ref) ∧
    (∀ (s : MainState) (t : Nat), applyWeatherResult s .fail t = s) ∧
    (∀ (s : MainState) (t : Nat), applyEarthResult s .fail t = s) ∧
    (∀ (s : MainState) (t now : Nat) (w : Bool) (d tm : String),
      mainTick (applyWeatherResult s .fail t) now w d tm = mainTick s now w d tm) ∧
    (∀ (es : EarthLoopState) (hr : Int),
      (photoAdvance es hr .fail).currentPhoto = es.currentPhoto ∧
      (photoAdvance es hr .fail).displayDirty = es.displayDirty) :=
  ⟨fun _ => rfl, fun _ _ => rfl, fun _ _ => rfl, fun _ _ _ _ _ _ => rfl,
   fun es hr => photoAdvance_fail_spec es hr⟩

-- ── Claim C3 ─────────────────────────────────────────────────────────────────

/-- Claim C3: a snapshot with ok False — including the initial state before
any successful fetch — renders as the explicit no-data placeholder on every
panel of both pages (the No Data text on the weather main panel, the
No Earth / photo available text on the earth main panel, the double-dash
placeholders on the side panels), never as stale data marked valid, and
rendering is total (no exception path exists in the model). -/
theorem no_data_renders_placeholders (wifi : Bool) (d t : String) (cache : Bool) :
    initialState.weatherRef.data = WSnapshot.fail ∧
    initialState.earthRef.data = ESnapshot.fail ∧
    render_main .fail wifi d t = .drawn [.text ("No Data") (80, 80, 90)] ∧
    render_humidity_wind .fail = .drawn [.text ("--") (60, 60, 70)] ∧
    render_sun_times .fail = .drawn [.text ("--") (60, 60, 70)] ∧
    render_main_earth .fail cache =
      .drawn [.text ("No Earth") (80, 80, 90), .text ("photo available") (60, 60, 70)] ∧
    render_left_earth .fail = .drawn [.text ("--") (60, 60, 70)] ∧
    render_right_earth .fail = .drawn [.text ("--") (60, 60, 70)] :=
  ⟨rfl, rfl, rfl, rfl, rfl, rfl, rfl, rfl⟩

-- ── Claim C4 ─────────────────────────────────────────────────────────────────

/-- Claim C4 is false in its second half: update_frame_buffers runs
unconditionally on every tick (weather.py line 621). Concretely, on the
tick at time 5 after the tick at time 0 neither snapshot has changed and
the layout variant has not flipped, yet the refresh counter still rises
from 1 to 2. -/
theorem refresh_on_unchanged_tick_cex :
    (mainTick tickedState 5 false ("Sun 12 Oct") ("12:00")).weatherRef = tickedState.weatherRef ∧
    (mainTick tickedState 5 false ("Sun 12 Oct") ("12:00")).earthRef = tickedState.earthRef ∧
    (mainTick tickedState 5 false ("Sun 12 Oct") ("12:00")).screensSwapped =
      tickedState.screensSwapped ∧
    tickedState.refreshCalls = 1 ∧
    (mainTick tickedState 5 false ("Sun 12 Oct") ("12:00")).refreshCalls = 2 := by
  decide

/-- Claim C4 (amended): the frame-cache refresh (update_frame_buffers,
re-rendering all six panel images of both pages) is invoked exactly once on
every tick, whether or not any snapshot changed or the layout variant
flipped. In particular it is invoked whenever a snapshot changed or the
variant flipped, but it is also invoked on every other tick. -/
theorem refresh_called_every_tick (s : MainState) (now : Nat) (wifi : Bool) (d t : String) :
    (mainTick s now wifi d t).refreshCalls = s.refreshCalls + 1 ∧
    (mainTick s now wifi d t).renderCalls = s.renderCalls + 6 := by
  unfold mainTick tickCore
  obtain ⟨k, hk⟩ := fetchStep_spec s now
  rw [hk]
  obtain ⟨b, ts, hsw⟩ := swapStep_spec { s with fetchLaunches := k } now
  rw [hsw]
  obtain ⟨dm, dl, dr, b2, hds⟩ := dimStep_spec _ now
  rw [hds]
  obtain ⟨fb, hfb⟩ := update_frame_buffers_spec _ wifi d t
  rw [hfb]
  obtain ⟨dd, hdd⟩ := displayCurrent_spec _
  rw [hdd]
  exact ⟨rfl, rfl⟩

-- ── Claim C5 ─────────────────────────────────────────────────────────────────

/-- Claim C5: a tick at which at least DIM_TIMEOUT (120 s) has elapsed
since the last activity event dims: the power state becomes dimmed and the
three backlight duties become the integer floor of 20 percent of their
normal values (main 90 to 18, sides 45 to 9); after an activity event at
time press, the next tick within the timeout restores exactly the pre-dim
values (90 and 45) and clears the dimmed state. -/
theorem auto_dim_then_restore (s : MainState) (now press later : Nat)
    (w1 w2 : Bool) (d1 t1 d2 t2 : String)
    (hnd : s.isDimmed = false)
    (hidle : DIM_TIMEOUT ≤ now - s.lastActivity)
    (hfresh : later - press < DIM_TIMEOUT) :
    (mainTick s now w1 d1 t1).isDimmed = true ∧
    (mainTick s now w1 d1 t1).dutyMain = 18 ∧
    (mainTick s now w1 d1 t1).dutyLeft = 9 ∧
    (mainTick s now w1 d1 t1).dutyRight = 9 ∧
    (mainTick (key1_callback (mainTick s now w1 d1 t1) press) later w2 d2 t2).isDimmed = false ∧
    (mainTick (key1_callback (mainTick s now w1 d1 t1) press) later w2 d2 t2).dutyMain = 90 ∧
    (mainTick (key1_callback (mainTick s now w1 d1 t1) press) later w2 d2 t2).dutyLeft = 45 ∧
    (mainTick (key1_callback (mainTick s now w1 d1 t1) press) later w2 d2 t2).dutyRight = 45 := by
  obtain ⟨ha, hb, hc, hd2, he⟩ := mainTick_dim_spec s now w1 d1 t1 hidle hnd
  have hkdim : (key1_callback (mainTick s now w1 d1 t1) press).isDimmed = true := ha
  have hkact :
      ¬ DIM_TIMEOUT ≤ later - (key1_callback (mainTick s now w1 d1 t1) press).lastActivity := by
    show ¬ DIM_TIMEOUT ≤ later - press
    simp only [DIM_TIMEOUT] at hfresh ⊢
    omega
  obtain ⟨ra, rb, rc, rd⟩ := mainTick_restore_spec _ later w2 d2 t2 hkact hkdim
  exact ⟨ha, hb.trans (by decide), hc.trans (by decide), hd2.trans (by decide),
         ra, rb.trans (by decide), rc.trans (by decide), rd.trans (by decide)⟩

/-- Witness for C5 at concrete inputs: process start, idle until the tick
at 120, wake press at 121, next tick at 125. -/
theorem auto_dim_then_restore_witness :
    (initialState.isDimmed = false ∧
     DIM_TIMEOUT ≤ 120 - initialState.lastActivity ∧
     125 - 121 < DIM_TIMEOUT) ∧
    ((mainTick initialState 120 false ("a") ("b")).isDimmed = true ∧
     (mainTick initialState 120 false ("a") ("b")).dutyMain = 18 ∧
     (mainTick initialState 120 false ("a") ("b")).dutyLeft = 9 ∧
     (mainTick initialState 120 false ("a") ("b")).dutyRight = 9 ∧
     (mainTick (key1_callback (mainTick initialState 120 false ("a") ("b")) 121)
        125 true ("c") ("e")).isDimmed = false ∧
     (mainTick (key1_callback (mainTick initialState 120 false ("a") ("b")) 121)
        125 true ("c") ("e")).dutyMain = 90 ∧
     (mainTick (key1_callback (mainTick initialState 120 false ("a") ("b")) 121)
        125 true ("c") ("e")).dutyLeft = 45 ∧
     (mainTick (key1_callback (mainTick initialState 120 false ("a") ("b")) 121)
        125 true ("c") ("e")).dutyRight = 45) :=
  ⟨⟨rfl, by decide, by decide⟩,
   auto_dim_then_restore initialState 120 121 125 false true ("a") ("b") ("c") ("e")
     rfl (by decide) (by decide)⟩

-- ── Claim C6 ─────────────────────────────────────────────────────────────────

/-- Claim C6 is false: the wake-button callback (key1_callback) only
records the activity timestamp; it does not itself restore brightness.
Concretely, from the dimmed state after the tick at 120, a press at 121
leaves the state dimmed with duties still 18 / 9 / 9 and writes nothing to
the displays — restoration only happens when the next polled tick runs the
brightness check. -/
theorem wake_press_no_immediate_restore_cex :
    dimmedState.isDimmed = true ∧
    dimmedState.dutyMain = 18 ∧
    (key1_callback dimmedState 121).isDimmed = true ∧
    (key1_callback dimmedState 121).dutyMain = 18 ∧
    (key1_callback dimmedState 121).dutyLeft = 9 ∧
    (key1_callback dimmedState 121).dutyRight = 9 ∧
    (key1_callback dimmedState 121).displayed = dimmedState.displayed := by
  decide

/-- Claim C6 (amended): a wake press while dimmed records the activity
timestamp and changes nothing else (no immediate brightness change, no
display write); the transition to bright with full duties 90 / 45 / 45
happens at the next polled tick of the main loop (any tick within
DIM_TIMEOUT of the press), not as a side channel of the callback. -/
theorem wake_press_restores_at_next_tick (s : MainState) (press later : Nat)
    (w : Bool) (d t : String)
    (hd : s.isDimmed = true) (hfresh : later - press < DIM_TIMEOUT) :
    (key1_callback s press).lastActivity = press ∧
    (key1_callback s press).isDimmed = s.isDimmed ∧
    (key1_callback s press).dutyMain = s.dutyMain ∧
    (key1_callback s press).dutyLeft = s.dutyLeft ∧
    (key1_callback s press).dutyRight = s.dutyRight ∧
    (key1_callback s press).displayed = s.displayed ∧
    (mainTick (key1_callback s press) later w d t).isDimmed = false ∧
    (mainTick (key1_callback s press) later w d t).dutyMain = 90 ∧
    (mainTick (key1_callback s press) later w d t).dutyLeft = 45 ∧
    (mainTick (key1_callback s press) later w d t).dutyRight = 45 := by
  have hact : ¬ DIM_TIMEOUT ≤ later - (key1_callback s press).lastActivity := by
    show ¬ DIM_TIMEOUT ≤ later - press
    simp only [DIM_TIMEOUT] at hfresh ⊢
    omega
  obtain ⟨ra, rb, rc, rd⟩ :=
    mainTick_restore_spec (key1_callback s press) later w d t hact (by exact hd)
  exact ⟨rfl, rfl, rfl, rfl, rfl, rfl, ra, rb.trans (by decide), rc.trans (by decide),
         rd.trans (by decide)⟩

/-- Witness for the amended C6 theorem at the concrete dimmed state. -/
theorem wake_press_restores_at_next_tick_witness :
    (dimmedState.isDimmed = true ∧ 125 - 121 < DIM_TIMEOUT) ∧
    ((key1_callback dimmedState 121).lastActivity = 121 ∧
     (key1_callback dimmedState 121).isDimmed = dimmedState.isDimmed ∧
     (key1_callback dimmedState 121).dutyMain = dimmedState.dutyMain ∧
     (key1_callback dimmedState 121).dutyLeft = dimmedState.dutyLeft ∧
     (key1_callback dimmedState 121).dutyRight = dimmedState.dutyRight ∧
     (key1_callback dimmedState 121).displayed = dimmedState.displayed ∧
     (mainTick (key1_callback dimmedState 121) 125 true ("c") ("e")).isDimmed = false ∧
     (mainTick (key1_callback dimmedState 121) 125 true ("c") ("e")).dutyMain = 90 ∧
     (mainTick (key1_callback dimmedState 121) 125 true ("c") ("e")).dutyLeft = 45 ∧
     (mainTick (key1_callback dimmedState 121) 125 true ("c") ("e")).dutyRight = 45) :=
  ⟨⟨by decide, by decide⟩,
   wake_press_restores_at_next_tick dimmedState 121 125 true ("c") ("e")
     (by decide) (by decide)⟩

-- ── Claim C7 ─────────────────────────────────────────────────────────────────

/-- Claim C7: a page-toggle press flips the current page and immediately
writes the already-cached frame set of the new page to the three displays;
no render function runs, no buffer refresh runs, no fetch is launched, the
buffers and both data refs are untouched. -/
theorem toggle_displays_cached_frames (s : MainState) (now : Nat) (bm : Bitmap)
    (h : (pageBuffer s.frames (togglePage s.currentPage)).main = some bm) :
    (key2_callback s now).currentPage = togglePage s.currentPage ∧
    (key2_callback s now).displayed =
      some ⟨bm, (pageBuffer s.frames (togglePage s.currentPage)).left,
            (pageBuffer s.frames (togglePage s.currentPage)).right⟩ ∧
    (key2_callback s now).renderCalls = s.renderCalls ∧
    (key2_callback s now).refreshCalls = s.refreshCalls ∧
    (key2_callback s now).fetchLaunches = s.fetchLaunches ∧
    (key2_callback s now).frames = s.frames ∧
    (key2_callback s now).weatherRef = s.weatherRef ∧
    (key2_callback s now).earthRef = s.earthRef := by
  unfold key2_callback render_current_page_now
  rw [displayCurrent_shows _ bm (by exact h)]
  exact ⟨rfl, rfl, rfl, rfl, rfl, rfl, rfl, rfl⟩

/-- Witness for C7: after the first tick the earth page buffer is cached
(as the placeholder page, no earth photo yet); a toggle at time 3 flips
weather to earth and displays the cached frames without rendering. -/
theorem toggle_displays_cached_frames_witness :
    ((pageBuffer tickedState.frames (togglePage tickedState.currentPage)).main =
      some (render_main_earth .fail false)) ∧
    ((key2_callback tickedState 3).currentPage = togglePage tickedState.currentPage ∧
     (key2_callback tickedState 3).displayed =
       some ⟨render_main_earth .fail false,
             (pageBuffer tickedState.frames (togglePage tickedState.currentPage)).left,
             (pageBuffer tickedState.frames (togglePage tickedState.currentPage)).right⟩ ∧
     (key2_callback tickedState 3).renderCalls = tickedState.renderCalls ∧
     (key2_callback tickedState 3).refreshCalls = tickedState.refreshCalls ∧
     (key2_callback tickedState 3).fetchLaunches = tickedState.fetchLaunches ∧
     (key2_callback tickedState 3).frames = tickedState.frames ∧
     (key2_callback tickedState 3).weatherRef = tickedState.weatherRef ∧
     (key2_callback tickedState 3).earthRef = tickedState.earthRef) :=
  ⟨rfl, toggle_displays_cached_frames tickedState 3 (render_main_earth .fail false) rfl⟩

-- ── Claim C8 ─────────────────────────────────────────────────────────────────

/-- Claim C8: rendering the sample weather snapshot (temp 18, code 2,
humidity 55, wind 12, wdir 270, ok true) selects the Partly Cloudy label
(the WMO entry for code 2) on the main panel, draws the large temperature
in the colour of the band containing 18 degrees ((200, 200, 100), the
band from 18 up to 24), and the wind panel maps wdir 270 to the direction
label W. -/
theorem sample_weather_render_check :
    condLabel 2 = "Partly Cloudy" ∧
    temp_col 18 = (200, 200, 100) ∧
    wind_dir 270 = "W" ∧
    render_main (.ok sampleWeather) true ("Sun 12 Oct") ("12:00") =
      .drawn [
        .text ("STREATHAM") (80, 95, 95),
        .text ("Sun 12 Oct") (55, 55, 70),
        .text ("12°") (120, 180, 255),
        .text ("20°") (255, 160, 80),
        .wifiIcon true,
        .text ("18°") (200, 200, 100),
        .text ("Feels 17°") (70, 70, 85),
        .text ("Partly Cloudy") (200, 200, 210),
        .text ("UV 3") (240, 200, 60),
        .text ("12:00") (224, 224, 224)
      ] ∧
    render_humidity_wind (.ok sampleWeather) =
      .drawn [
        .text ("HUM") (50, 50, 65),
        .text ("55%") (60, 180, 180),
        .sepLine,
        .text ("WIND") (50, 50, 65),
        .text ("12") (160, 110, 220),
        .text ("W km/h") (80, 80, 95)
      ] := by
  decide

-- ── Claim C9 ─────────────────────────────────────────────────────────────────

/-- Claim C9 is false: the loop body wraps the three ShowImage calls in no
handler (the only except clause of main catches KeyboardInterrupt), so a
raised display-write error propagates and ends the process. Concretely,
with a failing write on the tick at time 0, the run ends in the error — the
tick at time 5 never executes, instead of the loop logging and continuing. -/
theorem display_write_error_crashes_cex :
    runTicks initialState
      [{ now := 0, wifi := false, dateStr := "d", timeStr := "t", showResult := .failure },
       { now := 5, wifi := false, dateStr := "d", timeStr := "t", showResult := .success }] =
      .error () :=
  rfl

/-- Claim C9 (amended): a raised error from a display write is not caught
by the loop: from any state, a tick whose hardware write fails ends the
whole run with the propagated error, and no later tick executes. -/
theorem display_write_error_ends_loop (s : MainState) (n : Nat) (w : Bool) (d t : String)
    (rest : List TickInput) :
    runTicks s
      ({ now := n, wifi := w, dateStr := d, timeStr := t, showResult := .failure } :: rest) =
      .error () := by
  simp only [runTicks]
  rw [mainTickE_failure s n w d t]

-- ── Claim C10 ────────────────────────────────────────────────────────────────

/-- Claim C10: whenever the photo list is non-empty the hourly selection
index current_hour mod length is a valid index (indexing never fails); the
fetched list holds at most MAX_PHOTOS (12) entries; and as the hour counter
advances the selection cycles with period equal to the list length,
reaching every index. -/
theorem photo_rotation_safe (images photos : List PhotoMeta) (hour : Nat)
    (h : photos ≠ []) :
    photoIndex hour photos < photos.length ∧
    (fetch_photos_list images).length ≤ MAX_PHOTOS ∧
    photoIndex (hour + photos.length) photos = photoIndex hour photos ∧
    (∀ i, i < photos.length → ∃ hh, photoIndex hh photos = i) := by
  have hl : 0 < photos.length := List.length_pos.mpr h
  refine ⟨Nat.mod_lt _ hl, ?_, Nat.add_mod_right hour photos.length,
          fun i hi => ⟨i, Nat.mod_eq_of_lt hi⟩⟩
  unfold fetch_photos_list
  split
  · simp
  · rw [List.length_take]
    exact min_le_left _ _

/-- Witness for C10 at the concrete three-photo list and hour 7. -/
theorem photo_rotation_safe_witness :
    samplePhotos ≠ [] ∧
    (photoIndex 7 samplePhotos < samplePhotos.length ∧
     (fetch_photos_list samplePhotos).length ≤ MAX_PHOTOS ∧
     photoIndex (7 + samplePhotos.length) samplePhotos = photoIndex 7 samplePhotos ∧
     (∀ i, i < samplePhotos.length → ∃ hh, photoIndex hh samplePhotos = i)) :=
  ⟨by decide, photo_rotation_safe samplePhotos samplePhotos 7 (by decide)⟩

end WeatherStation
